import Mathlib

/-!
Shallow embedding of `src/lib/services/api-token-service.ts` (class `ApiTokenService`).

The service keeps an in-memory cache `activeTokens : List IApiToken`; every method is
modelled as an explicit function of that cache (and of the store's responses), returning
the method's result together with the cache left behind.  The backing store
(`IApiTokenStore`) is the external collaborator: it is modelled as a record of response
functions, so a theorem quantifying over the store covers every behaviour the store may
exhibit on the calls the method makes.  Asynchrony is irrelevant to the claims (single
call, no interleaving), so `await`ed calls are ordinary function applications.
-/

/-- Modelled from the spec: the wildcard scope sentinel `ALL` from
`types/models/api-token` (not under `src/`); a tagged value distinct from any real
project or environment identifier. -/
def ALL : String := "*"

/-- Modelled from the spec: the token-type constant `ApiTokenType.ADMIN` from
`types/models/api-token` (not under `src/`). -/
def ApiTokenType.ADMIN : String := "admin"

/-- Modelled from the spec: the token-type constant `ApiTokenType.CLIENT` from
`types/models/api-token` (not under `src/`). -/
def ApiTokenType.CLIENT : String := "client"

/-- Modelled from the spec: the `ADMIN` permission constant from `types/permissions`
(not under `src/`), the permission an admin principal carries. -/
def permissions.ADMIN : String := "ADMIN"

/-- Modelled from the spec: the `CLIENT` permission constant from `types/permissions`
(not under `src/`), the permission a client principal carries. -/
def permissions.CLIENT : String := "CLIENT"

/-- Modelled from the spec: the `FOREIGN_KEY_VIOLATION` error code from
`error/db-error` (not under `src/`): the store-level code marking a
foreign-key-violation-shaped failure.  Only its identity is used by the service. -/
def FOREIGN_KEY_VIOLATION : String := "23503"

/-- A token record (`IApiToken` / `IApiTokenCreate` from `types/models/api-token`).
Timestamps are `Option Nat` (absent = JS `undefined`).  The `secret`-less create shape
is represented by the same record with its `secret` field ignored/overwritten, matching
the structural typing of the source. -/
structure IApiToken where
  secret : String
  project : String
  environment : String
  type : String
  username : String
  createdAt : Option Nat := none
  expiresAt : Option Nat := none
deriving DecidableEq, Repr

/-- A store-level error as the service inspects it: `error.code`, `error.constraint`
and `error.message` are the only properties read (`insertNewApiToken`). -/
structure DbError where
  code : String
  constraint : String
  message : String
deriving DecidableEq, Repr

/-- An error surfaced by the service: either a `BadDataError` (domain validation
error carrying a message) or a store error propagated unchanged. -/
inductive ServiceError where
  | badData (message : String)
  | store (e : DbError)
deriving DecidableEq, Repr

/-- Modelled from the spec: `ApiUser` from `types/api-user` (not under `src/`) — the
Principal built at lookup time from a token record: permission set, `username`,
`project`, `environment`, `type`. -/
structure ApiUser where
  username : String
  permissions : List String
  project : String
  environment : String
  type : String
deriving DecidableEq, Repr

/-- The Token Store Gateway (`IApiTokenStore`), the external collaborator, modelled by
the responses it gives to the calls the service makes.  A function-valued field maps
the call's argument to the store's response; an `Except.error` response models the
store call throwing. -/
structure IApiTokenStore where
  getAll : Except DbError (List IApiToken)
  getAllActive : Except DbError (List IApiToken)
  count : Nat
  insert : IApiToken → Except DbError IApiToken
  setExpiry : String → Nat → Except DbError IApiToken
  delete : String → Except DbError Unit

/-- `validateNewApiToken({ type, project, environment })`: the scope validator.  A
thrown `BadDataError` is the `Except.error` case; later checks are not reached once one
throws, exactly as in the source. -/
def ApiTokenService.validateNewApiToken (t : IApiToken) : Except ServiceError Unit :=
  if t.type = ApiTokenType.ADMIN ∧ t.project ≠ ALL then
    .error (.badData "Admin token cannot be scoped to single project")
  else if t.type = ApiTokenType.ADMIN ∧ t.environment ≠ ALL then
    .error (.badData "Admin token cannot be scoped to single environment")
  else if t.type = ApiTokenType.CLIENT ∧ t.environment = ALL then
    .error (.badData "Client token cannot be scoped to all environments")
  else
    .ok ()

/-- One lowercase hexadecimal digit, as `Buffer.toString('hex')` renders a nibble:
for values below 16, core's `Nat.digitChar` is exactly that rendering. -/
def hexDigit (n : Nat) : Char :=
  Nat.digitChar (n % 16)

/-- `Buffer.toString('hex')`: each byte rendered as two lowercase hex characters. -/
def bytesToHex (bytes : List Nat) : String :=
  String.mk (List.flatten (bytes.map fun b => [hexDigit (b / 16 % 16), hexDigit (b % 16)]))

/-- Whether a character is a lowercase hexadecimal digit. -/
def isHexChar (c : Char) : Bool :=
  c.isDigit || ('a' ≤ c && c ≤ 'f')

/-- `generateSecretKey({ project, environment })`.  The 28 bytes produced by
`crypto.randomBytes(28)` — the cryptographically secure random source — enter as the
explicit argument `randomBytes`; the function renders them in hex and builds
`` `${project}:${environment}.${randomStr}` ``. -/
def ApiTokenService.generateSecretKey (project environment : String)
    (randomBytes : List Nat) : String :=
  let randomStr := bytesToHex randomBytes
  project ++ ":" ++ environment ++ "." ++ randomStr

/-- `insertNewApiToken(newApiToken)`: awaits `store.insert`, on success pushes the
stored token onto `activeTokens` and returns it; on a foreign-key violation rewrites
the message for the project/environment constraints and throws `BadDataError`; any
other store error is rethrown unchanged. -/
def ApiTokenService.insertNewApiToken (store : IApiTokenStore) (newApiToken : IApiToken)
    (activeTokens : List IApiToken) : Except ServiceError IApiToken × List IApiToken :=
  match store.insert newApiToken with
  | .ok token => (.ok token, activeTokens ++ [token])
  | .error error =>
    if error.code = FOREIGN_KEY_VIOLATION then
      let message :=
        if error.constraint = "api_tokens_project_fkey" then
          "Project=" ++ newApiToken.project ++ " does not exist"
        else if error.constraint = "api_tokens_environment_fkey" then
          "Environment=" ++ newApiToken.environment ++ " does not exist"
        else
          error.message
      (.error (.badData message), activeTokens)
    else
      (.error (.store error), activeTokens)

/-- `createApiToken(newToken)`: validates, generates a secret from the supplied random
bytes, builds `{ ...newToken, secret }` and delegates to `insertNewApiToken`.  A
validation throw surfaces as the error with the cache untouched. -/
def ApiTokenService.createApiToken (store : IApiTokenStore) (newToken : IApiToken)
    (randomBytes : List Nat) (activeTokens : List IApiToken) :
    Except ServiceError IApiToken × List IApiToken :=
  match ApiTokenService.validateNewApiToken newToken with
  | .error e => (.error e, activeTokens)
  | .ok _ =>
    let secret :=
      ApiTokenService.generateSecretKey newToken.project newToken.environment randomBytes
    let createNewToken := { newToken with secret := secret }
    ApiTokenService.insertNewApiToken store createNewToken activeTokens

/-- `getUserForToken(secret)`: linear scan of the cache for the first exact `secret`
match; builds the Principal or returns `undefined`. -/
def ApiTokenService.getUserForToken (secret : String) (activeTokens : List IApiToken) :
    Option ApiUser :=
  match activeTokens.find? (fun t => t.secret == secret) with
  | some token =>
    some { username := token.username
           permissions :=
             if token.type = ApiTokenType.ADMIN then [permissions.ADMIN]
             else [permissions.CLIENT]
           project := token.project
           environment := token.environment
           type := token.type }
  | none => none

/-- `fetchActiveTokens()`: awaits `store.getAllActive` (via `getAllActiveTokens`) and
assigns the result to `activeTokens`; the `finally { return }` swallows any throw, so
the method always resolves (`Except.ok ()`) and on failure the cache is untouched. -/
def ApiTokenService.fetchActiveTokens (store : IApiTokenStore)
    (activeTokens : List IApiToken) : Except DbError Unit × List IApiToken :=
  match store.getAllActive with
  | .ok tokens => (.ok (), tokens)
  | .error _ => (.ok (), activeTokens)

/-- `updateExpiry(secret, expiresAt)`: pure delegation to `store.setExpiry`; the cache
is not touched. -/
def ApiTokenService.updateExpiry (store : IApiTokenStore) (secret : String)
    (expiresAt : Nat) (activeTokens : List IApiToken) :
    Except DbError IApiToken × List IApiToken :=
  (store.setExpiry secret expiresAt, activeTokens)

/-- `delete(secret)`: pure delegation to `store.delete`; the cache is not touched. -/
def ApiTokenService.delete (store : IApiTokenStore) (secret : String)
    (activeTokens : List IApiToken) : Except DbError Unit × List IApiToken :=
  (store.delete secret, activeTokens)

/-- JS `String.prototype.split` with a one-character separator, on the char list. -/
def jsSplitAux (sep : Char) : List Char → List Char → List String
  | [], acc => [String.mk acc.reverse]
  | c :: rest, acc =>
    if c = sep then String.mk acc.reverse :: jsSplitAux sep rest []
    else jsSplitAux sep rest (c :: acc)

/-- JS `token.split(sep)` for a one-character separator. -/
def jsSplit (s : String) (sep : Char) : List String :=
  jsSplitAux sep s.data []

/-- JS indexing `parts[i]` where a missing element is `undefined`; rendered here as the
string `"undefined"`, the text a template literal would interpolate (for the equality
comparisons the service performs the two are interchangeable). -/
def jsIndex (parts : List String) (i : Nat) : String :=
  (parts.get? i).getD "undefined"

/-- The record `initApiTokens` builds for one configured descriptor string:
`tokenParts = token.split(':')`, `project = tokenParts[0]`,
`environment = tokenParts[1]`, `` secret = `${tokenParts[0]}:${tokenParts[1]}.${tokenParts[2]}` ``,
`type = ADMIN`, `username = 'admin'`. -/
def ApiTokenService.buildInitToken (token : String) : IApiToken :=
  let tokenParts := jsSplit token ':'
  { createdAt := none
    project := jsIndex tokenParts 0
    environment := jsIndex tokenParts 1
    secret := jsIndex tokenParts 0 ++ ":" ++ jsIndex tokenParts 1 ++ "." ++ jsIndex tokenParts 2
    type := ApiTokenType.ADMIN
    username := "admin" }

/-- Outcome of a bootstrap run: the records passed to `validateNewApiToken`, the
records passed to `store.insert`, and the cache left behind.  The traces record the
calls the seeder actually made. -/
structure InitResult where
  validated : List IApiToken
  inserted : List IApiToken
  activeTokens : List IApiToken
deriving DecidableEq, Repr

/-- The `for (const token of tokens)` loop of `initApiTokens`: build, validate, insert
each descriptor in order; the first throw (from validation, or from
`insertNewApiToken`) is caught by the surrounding `try`, which logs and abandons the
remaining descriptors. -/
def ApiTokenService.initLoop (store : IApiTokenStore) :
    List String → List IApiToken → InitResult
  | [], activeTokens => ⟨[], [], activeTokens⟩
  | token :: rest, activeTokens =>
    let newToken := ApiTokenService.buildInitToken token
    match ApiTokenService.validateNewApiToken newToken with
    | .error _ => ⟨[newToken], [], activeTokens⟩
    | .ok _ =>
      match ApiTokenService.insertNewApiToken store newToken activeTokens with
      | (.error _, activeTokens') => ⟨[newToken], [newToken], activeTokens'⟩
      | (.ok _, activeTokens') =>
        let r := ApiTokenService.initLoop store rest activeTokens'
        ⟨newToken :: r.validated, newToken :: r.inserted, r.activeTokens⟩

/-- `initApiTokens(tokens)`: the bootstrap seeder.  Awaits `store.count()`; a truthy
(non-zero) count returns at once; otherwise runs the seeding loop. -/
def ApiTokenService.initApiTokens (store : IApiTokenStore) (tokens : List String)
    (activeTokens : List IApiToken) : InitResult :=
  if store.count ≠ 0 then ⟨[], [], activeTokens⟩
  else ApiTokenService.initLoop store tokens activeTokens

/-! ## Helper lemmas -/

/-- A scope validation that succeeds on an ADMIN-typed record forces both scope fields
to the `ALL` sentinel. -/
theorem validateNewApiToken_ok_admin (t : IApiToken) (hty : t.type = ApiTokenType.ADMIN)
    (h : ApiTokenService.validateNewApiToken t = .ok ()) :
    t.project = ALL ∧ t.environment = ALL := by
  unfold ApiTokenService.validateNewApiToken at h
  split_ifs at h with h1 h2 h3
  refine ⟨?_, ?_⟩
  · by_contra hp
    exact h1 ⟨hty, hp⟩
  · by_contra he
    exact h2 ⟨hty, he⟩

/-- Appending a token whose secret is fresh for the cache makes the linear scan find
exactly that token. -/
theorem find?_secret_append (cache : List IApiToken) (token : IApiToken)
    (h : ∀ t ∈ cache, t.secret ≠ token.secret) :
    (cache ++ [token]).find? (fun t => t.secret == token.secret) = some token := by
  induction cache with
  | nil => simp
  | cons a l ih =>
    have ha : (a.secret == token.secret) = false := by
      simpa using h a (List.mem_cons_self a l)
    simpa [List.find?, ha] using ih fun t ht => h t (List.mem_cons_of_mem a ht)

/-! ## Claim theorems -/

/-- C1: the scope validator succeeds exactly when none of the three scope rules is
violated, and otherwise fails with a `BadDataError` naming the violated rule: ADMIN
with a single project is rejected naming "single project", ADMIN (global project) with
a single environment naming "single environment", CLIENT with the ALL environment
naming "all environments"; and it is a pure function of its three scope inputs — any
record agreeing on `type`, `project` and `environment` validates identically. -/
theorem validateNewApiToken_scope_rules (t : IApiToken) :
    (ApiTokenService.validateNewApiToken t = .ok () ↔
      ¬(t.type = ApiTokenType.ADMIN ∧ t.project ≠ ALL) ∧
      ¬(t.type = ApiTokenType.ADMIN ∧ t.environment ≠ ALL) ∧
      ¬(t.type = ApiTokenType.CLIENT ∧ t.environment = ALL)) ∧
    (t.type = ApiTokenType.ADMIN → t.project ≠ ALL →
      ApiTokenService.validateNewApiToken t =
        .error (.badData "Admin token cannot be scoped to single project")) ∧
    (t.type = ApiTokenType.ADMIN → t.project = ALL → t.environment ≠ ALL →
      ApiTokenService.validateNewApiToken t =
        .error (.badData "Admin token cannot be scoped to single environment")) ∧
    (t.type = ApiTokenType.CLIENT → t.environment = ALL →
      ApiTokenService.validateNewApiToken t =
        .error (.badData "Client token cannot be scoped to all environments")) ∧
    (∀ t' : IApiToken, t'.type = t.type → t'.project = t.project →
      t'.environment = t.environment →
      ApiTokenService.validateNewApiToken t' = ApiTokenService.validateNewApiToken t) := by
  refine ⟨?_, ?_, ?_, ?_, ?_⟩
  · unfold ApiTokenService.validateNewApiToken
    split_ifs with h1 h2 h3
    · exact iff_of_false (by simp) (by tauto)
    · exact iff_of_false (by simp) (by tauto)
    · exact iff_of_false (by simp) (by tauto)
    · exact iff_of_true rfl ⟨h1, h2, h3⟩
  · intro ha hp
    unfold ApiTokenService.validateNewApiToken
    rw [if_pos ⟨ha, hp⟩]
  · intro ha hpAll he
    unfold ApiTokenService.validateNewApiToken
    rw [if_neg (fun hh => hh.2 hpAll), if_pos ⟨ha, he⟩]
  · intro hc he
    have hca : ¬(t.type = ApiTokenType.ADMIN) := by
      rw [hc]
      decide
    unfold ApiTokenService.validateNewApiToken
    rw [if_neg (fun hh => hca hh.1), if_neg (fun hh => hca hh.1), if_pos ⟨hc, he⟩]
  · intro t' h1 h2 h3
    unfold ApiTokenService.validateNewApiToken
    rw [h1, h2, h3]

/-- Witness for C1: a concrete ADMIN token scoped to the single project "myproj" is
rejected naming "single project". -/
theorem validateNewApiToken_scope_rules_witness :
    ApiTokenService.validateNewApiToken
      { secret := "s", project := "myproj", environment := "*",
        type := ApiTokenType.ADMIN, username := "u" } =
      .error (.badData "Admin token cannot be scoped to single project") :=
  (validateNewApiToken_scope_rules _).2.1 rfl (by decide)

/-- C10: a record whose `type` is neither ADMIN nor CLIENT passes the scope validator
for every `project` and `environment`, and `createApiToken` on such a record proceeds
straight to the store insert (it behaves as `insertNewApiToken` on the
secret-completed record). -/
theorem validateNewApiToken_unknown_type (t : IApiToken)
    (h1 : t.type ≠ ApiTokenType.ADMIN) (h2 : t.type ≠ ApiTokenType.CLIENT) :
    ApiTokenService.validateNewApiToken t = .ok () ∧
    ∀ (store : IApiTokenStore) (randomBytes : List Nat) (activeTokens : List IApiToken),
      ApiTokenService.createApiToken store t randomBytes activeTokens =
        ApiTokenService.insertNewApiToken store
          { t with secret :=
              ApiTokenService.generateSecretKey t.project t.environment randomBytes }
          activeTokens := by
  have hv : ApiTokenService.validateNewApiToken t = .ok () := by
    unfold ApiTokenService.validateNewApiToken
    rw [if_neg (fun hh => h1 hh.1), if_neg (fun hh => h1 hh.1),
      if_neg (fun hh => h2 hh.1)]
  refine ⟨hv, ?_⟩
  intro store randomBytes activeTokens
  unfold ApiTokenService.createApiToken
  rw [hv]

/-- Witness for C10: a token of the unknown type "frontend" with a non-ALL project and
the ALL environment passes validation. -/
theorem validateNewApiToken_unknown_type_witness :
    ApiTokenService.validateNewApiToken
      { secret := "s", project := "myproj", environment := "*",
        type := "frontend", username := "u" } = .ok () :=
  (validateNewApiToken_unknown_type _ (by decide) (by decide)).1

/-- C5: a refresh cycle never propagates an error to its caller (the method always
resolves, so the periodic scheduler survives every cycle); when the store fetch fails
the cache retains the previous snapshot unchanged, and when it succeeds the cache is
replaced wholesale by the fetched set. -/
theorem fetchActiveTokens_fail_open (store : IApiTokenStore)
    (activeTokens : List IApiToken) :
    (ApiTokenService.fetchActiveTokens store activeTokens).1 = .ok () ∧
    (∀ e, store.getAllActive = .error e →
      (ApiTokenService.fetchActiveTokens store activeTokens).2 = activeTokens) ∧
    (∀ ts, store.getAllActive = .ok ts →
      (ApiTokenService.fetchActiveTokens store activeTokens).2 = ts) := by
  unfold ApiTokenService.fetchActiveTokens
  cases hga : store.getAllActive <;> simp_all

/-- Witness for C5: against a store whose fetch throws, the refresh resolves cleanly
and a one-token cache is retained unchanged. -/
theorem fetchActiveTokens_fail_open_witness :
    (ApiTokenService.fetchActiveTokens
        { getAll := .ok [], getAllActive := .error ⟨"57P01", "", "connection lost"⟩,
          count := 0, insert := fun t => .ok t,
          setExpiry := fun _ _ => .error ⟨"", "", ""⟩, delete := fun _ => .ok () }
        [{ secret := "default:development.abc", project := "default",
           environment := "development", type := ApiTokenType.CLIENT,
           username := "u" }]).2 =
      [{ secret := "default:development.abc", project := "default",
         environment := "development", type := ApiTokenType.CLIENT,
         username := "u" }] :=
  (fetchActiveTokens_fail_open _ _).2.1 ⟨"57P01", "", "connection lost"⟩ rfl

/-- C6: against a store whose token count is non-zero the bootstrap seeder performs
zero validations and zero inserts and leaves the cache untouched — it returns right
after the count check, so a second run against an already-seeded store inserts
nothing. -/
theorem initApiTokens_skips_nonempty_store (store : IApiTokenStore)
    (tokens : List String) (activeTokens : List IApiToken) (h : store.count ≠ 0) :
    ApiTokenService.initApiTokens store tokens activeTokens = ⟨[], [], activeTokens⟩ := by
  unfold ApiTokenService.initApiTokens
  rw [if_pos h]

/-- Witness for C6: a store already holding one token makes the seeder a no-op even
with a descriptor configured. -/
theorem initApiTokens_skips_nonempty_store_witness :
    ApiTokenService.initApiTokens
      { getAll := .ok [], getAllActive := .ok [], count := 1,
        insert := fun t => .ok t, setExpiry := fun _ _ => .error ⟨"", "", ""⟩,
        delete := fun _ => .ok () }
      ["*:*:abc"] [] = ⟨[], [], []⟩ :=
  initApiTokens_skips_nonempty_store _ ["*:*:abc"] [] (by decide)

/-- C7: `updateExpiry` returns exactly the store's `setExpiry` result and `delete`
returns exactly the store's `delete` result, both leaving the in-memory cache
unchanged — so every `getUserForToken` lookup after a delete answers as before it,
until a refresh replaces the cache. -/
theorem updateExpiry_delete_frame (store : IApiTokenStore) (secret : String)
    (expiresAt : Nat) (activeTokens : List IApiToken) :
    ApiTokenService.updateExpiry store secret expiresAt activeTokens =
      (store.setExpiry secret expiresAt, activeTokens) ∧
    ApiTokenService.delete store secret activeTokens =
      (store.delete secret, activeTokens) ∧
    (∀ s, ApiTokenService.getUserForToken s
        (ApiTokenService.delete store secret activeTokens).2 =
      ApiTokenService.getUserForToken s activeTokens) :=
  ⟨rfl, rfl, fun _ => rfl⟩

/-- C2: when validation passes and the store insert succeeds, `createApiToken` returns
the stored record with it appended to the cache, and an immediate `getUserForToken`
with the returned record's secret — no refresh in between — yields the Principal with
that record's `username`, `project`, `environment` and `type` (the freshness
hypothesis is the store's secret-uniqueness invariant: no cached token already bears
the new secret). -/
theorem createApiToken_immediate_lookup (store : IApiTokenStore)
    (newToken token : IApiToken) (randomBytes : List Nat)
    (activeTokens : List IApiToken)
    (hval : ApiTokenService.validateNewApiToken newToken = .ok ())
    (hins : store.insert
        { newToken with secret := ApiTokenService.generateSecretKey newToken.project newToken.environment randomBytes } =
      .ok token)
    (hfresh : ∀ t ∈ activeTokens, t.secret ≠ token.secret) :
    ApiTokenService.createApiToken store newToken randomBytes activeTokens =
      (.ok token, activeTokens ++ [token]) ∧
    ApiTokenService.getUserForToken token.secret (activeTokens ++ [token]) =
      some { username := token.username
             permissions :=
               if token.type = ApiTokenType.ADMIN then [permissions.ADMIN]
               else [permissions.CLIENT]
             project := token.project
             environment := token.environment
             type := token.type } := by
  constructor
  · simp only [ApiTokenService.createApiToken, hval]
    simp only [ApiTokenService.insertNewApiToken, hins]
  · unfold ApiTokenService.getUserForToken
    rw [find?_secret_append activeTokens token hfresh]

/-- Witness for C2: creating a CLIENT token for project "default" in environment
"development" against a store that stores records verbatim makes the token immediately
resolvable to its Principal. -/
theorem createApiToken_immediate_lookup_witness :
    ApiTokenService.getUserForToken "default:development."
        ([] ++ [{ secret := "default:development.", project := "default",
                  environment := "development", type := ApiTokenType.CLIENT,
                  username := "client-user" }]) =
      some { username := "client-user", permissions := [permissions.CLIENT],
             project := "default", environment := "development",
             type := ApiTokenType.CLIENT } := by
  have h := (createApiToken_immediate_lookup
    { getAll := .ok [], getAllActive := .ok [], count := 0,
      insert := fun t => .ok t, setExpiry := fun _ _ => .error ⟨"", "", ""⟩,
      delete := fun _ => .ok () }
    { secret := "", project := "default", environment := "development",
      type := ApiTokenType.CLIENT, username := "client-user" }
    { secret := "default:development.", project := "default",
      environment := "development", type := ApiTokenType.CLIENT,
      username := "client-user" }
    [] [] rfl rfl (by simp)).2
  simpa [ApiTokenType.CLIENT, ApiTokenType.ADMIN] using h

/-- C4: a failed store insert whose error is a foreign-key violation on the project
constraint surfaces as a `BadDataError` whose message embeds the supplied project
identifier; on the environment constraint, the supplied environment identifier; and a
store error that is not a foreign-key violation propagates to the caller unchanged. -/
theorem insertNewApiToken_fk_translation (store : IApiTokenStore) (t : IApiToken)
    (activeTokens : List IApiToken) (e : DbError) (h : store.insert t = .error e) :
    (e.code = FOREIGN_KEY_VIOLATION → e.constraint = "api_tokens_project_fkey" →
      (ApiTokenService.insertNewApiToken store t activeTokens).1 =
        .error (.badData ("Project=" ++ t.project ++ " does not exist"))) ∧
    (e.code = FOREIGN_KEY_VIOLATION → e.constraint = "api_tokens_environment_fkey" →
      (ApiTokenService.insertNewApiToken store t activeTokens).1 =
        .error (.badData ("Environment=" ++ t.environment ++ " does not exist"))) ∧
    (e.code ≠ FOREIGN_KEY_VIOLATION →
      (ApiTokenService.insertNewApiToken store t activeTokens).1 = .error (.store e)) := by
  refine ⟨?_, ?_, ?_⟩
  · intro hcode hcons
    simp [ApiTokenService.insertNewApiToken, h, hcode, hcons]
  · intro hcode hcons
    have hne : e.constraint ≠ "api_tokens_project_fkey" := by
      rw [hcons]
      decide
    simp [ApiTokenService.insertNewApiToken, h, hcode, hcons, hne]
  · intro hcode
    simp [ApiTokenService.insertNewApiToken, h, hcode]

/-- Witness for C4: an insert failing with a foreign-key violation on the project
constraint surfaces a message embedding the supplied project "myproj". -/
theorem insertNewApiToken_fk_translation_witness :
    (ApiTokenService.insertNewApiToken
        { getAll := .ok [], getAllActive := .ok [],
          count := 0,
          insert := fun _ =>
            .error ⟨"23503", "api_tokens_project_fkey", "fk violation"⟩,
          setExpiry := fun _ _ => .error ⟨"", "", ""⟩, delete := fun _ => .ok () }
        { secret := "s", project := "myproj", environment := "development",
          type := ApiTokenType.CLIENT, username := "u" }
        []).1 =
      .error (.badData "Project=myproj does not exist") :=
  (insertNewApiToken_fk_translation _ _ []
    ⟨"23503", "api_tokens_project_fkey", "fk violation"⟩ rfl).1 rfl rfl

/-- C9: a failed store insert leaves the in-memory cache exactly as it was — the
rejected token is never appended, the call surfaces an error, and every
`getUserForToken` lookup answers as before the attempt. -/
theorem insertNewApiToken_failure_frame (store : IApiTokenStore) (t : IApiToken)
    (activeTokens : List IApiToken) (e : DbError) (h : store.insert t = .error e) :
    (ApiTokenService.insertNewApiToken store t activeTokens).2 = activeTokens ∧
    (∃ err, (ApiTokenService.insertNewApiToken store t activeTokens).1 = .error err) ∧
    (∀ s, ApiTokenService.getUserForToken s
        (ApiTokenService.insertNewApiToken store t activeTokens).2 =
      ApiTokenService.getUserForToken s activeTokens) := by
  have hsnd : (ApiTokenService.insertNewApiToken store t activeTokens).2 =
      activeTokens := by
    simp only [ApiTokenService.insertNewApiToken, h]
    split_ifs <;> rfl
  refine ⟨hsnd, ?_, fun s => by rw [hsnd]⟩
  simp only [ApiTokenService.insertNewApiToken, h]
  split_ifs <;> exact ⟨_, rfl⟩

/-- Witness for C9: a unique-constraint store failure (not a foreign-key violation)
leaves a one-token cache unchanged. -/
theorem insertNewApiToken_failure_frame_witness :
    (ApiTokenService.insertNewApiToken
        { getAll := .ok [], getAllActive := .ok [],
          count := 0,
          insert := fun _ => .error ⟨"23505", "api_tokens_pkey", "duplicate key"⟩,
          setExpiry := fun _ _ => .error ⟨"", "", ""⟩, delete := fun _ => .ok () }
        { secret := "s", project := "default", environment := "development",
          type := ApiTokenType.CLIENT, username := "u" }
        [{ secret := "t", project := "*", environment := "*",
           type := ApiTokenType.ADMIN, username := "admin" }]).2 =
      [{ secret := "t", project := "*", environment := "*",
         type := ApiTokenType.ADMIN, username := "admin" }] :=
  (insertNewApiToken_failure_frame _ _ _
    ⟨"23505", "api_tokens_pkey", "duplicate key"⟩ rfl).1

/-- Every value `hexDigit` produces is one of the sixteen hexadecimal characters. -/
theorem hexDigit_isHexChar (n : Nat) : isHexChar (hexDigit n) = true := by
  unfold hexDigit
  have h : n % 16 < 16 := Nat.mod_lt _ (by omega)
  generalize hm : n % 16 = m at h ⊢
  interval_cases m <;> decide

/-- The hex rendering of a byte list has two characters per byte. -/
theorem bytesToHex_length (bytes : List Nat) :
    (bytesToHex bytes).length = 2 * bytes.length := by
  induction bytes with
  | nil => rfl
  | cons b rest ih =>
    simp only [bytesToHex, String.length] at ih ⊢
    simp only [List.map_cons, List.flatten_cons, List.length_append, List.length_cons,
      List.length_nil] at ih ⊢
    omega

/-- Every character of the hex rendering of a byte list is a hexadecimal character. -/
theorem bytesToHex_chars (bytes : List Nat) :
    ∀ c ∈ (bytesToHex bytes).data, isHexChar c = true := by
  induction bytes with
  | nil => simp [bytesToHex]
  | cons b rest ih =>
    intro c hc
    have hc2 : c = hexDigit (b / 16 % 16) ∨ c = hexDigit (b % 16) ∨
        c ∈ (bytesToHex rest).data := by
      simpa [bytesToHex, List.mem_cons] using hc
    rcases hc2 with h | h | h
    · rw [h]
      exact hexDigit_isHexChar _
    · rw [h]
      exact hexDigit_isHexChar _
    · exact ih c h

/-- C8: a secret generated for `(project, environment)` from the 28 random bytes is
the string `project`, then ":", then `environment`, then ".", then a suffix that is
the hexadecimal rendering of the bytes — exactly 56 hexadecimal characters (224 bits),
meeting the at-least-56 bound; in particular the secret starts with
`project ++ ":" ++ environment ++ "."`.  (That the 28 bytes come from the
process-level CSPRNG `crypto.randomBytes` is a fact about the byte source, which
enters this model as the `randomBytes` argument.) -/
theorem generateSecretKey_format (project environment : String)
    (randomBytes : List Nat) (h : randomBytes.length = 28) :
    ApiTokenService.generateSecretKey project environment randomBytes =
      project ++ ":" ++ environment ++ "." ++ bytesToHex randomBytes ∧
    (bytesToHex randomBytes).length = 56 ∧
    (∀ c ∈ (bytesToHex randomBytes).data, isHexChar c = true) := by
  refine ⟨rfl, ?_, bytesToHex_chars randomBytes⟩
  rw [bytesToHex_length, h]

/-- Witness for C8: the secret generated from 28 zero bytes for `("default", "development")`
is the scope prefix followed by 56 hex characters. -/
theorem generateSecretKey_format_witness :
    ApiTokenService.generateSecretKey "default" "development" (List.replicate 28 0) =
      "default" ++ ":" ++ "development" ++ "." ++ bytesToHex (List.replicate 28 0) ∧
    (bytesToHex (List.replicate 28 0)).length = 56 :=
  ⟨(generateSecretKey_format "default" "development" _ (by decide)).1,
   (generateSecretKey_format "default" "development" _ (by decide)).2.1⟩

/-- Every record the seeding loop passes to the store insert was built from one of the
configured descriptors and passed scope validation first. -/
theorem initLoop_inserted_spec (store : IApiTokenStore) (tokens : List String) :
    ∀ activeTokens, ∀ r ∈ (ApiTokenService.initLoop store tokens activeTokens).inserted,
      ApiTokenService.validateNewApiToken r = .ok () ∧
      ∃ tk ∈ tokens, r = ApiTokenService.buildInitToken tk := by
  induction tokens with
  | nil =>
    intro activeTokens r hr
    simp [ApiTokenService.initLoop] at hr
  | cons token rest ih =>
    intro activeTokens r hr
    cases hval : ApiTokenService.validateNewApiToken
        (ApiTokenService.buildInitToken token) with
    | error e =>
      simp [ApiTokenService.initLoop, hval] at hr
    | ok u =>
      cases hins : ApiTokenService.insertNewApiToken store
          (ApiTokenService.buildInitToken token) activeTokens with
      | mk res c2 =>
        cases res with
        | error err =>
          simp only [ApiTokenService.initLoop, hval, hins] at hr
          have hr2 : r = ApiTokenService.buildInitToken token := by
            simpa using hr
          subst hr2
          exact ⟨by rw [hval], token, List.mem_cons_self token rest, rfl⟩
        | ok tok =>
          simp only [ApiTokenService.initLoop, hval, hins] at hr
          rcases List.mem_cons.mp hr with hr2 | hr2
          · subst hr2
            exact ⟨by rw [hval], token, List.mem_cons_self token rest, rfl⟩
          · obtain ⟨hv, tk, htk, heq⟩ := ih c2 r hr2
            exact ⟨hv, tk, List.mem_cons_of_mem token htk, heq⟩

/-- C3 (amended): against an empty store, the record the seeder builds for a
descriptor `project:environment:suffix` is ADMIN-typed with username "admin" and
secret `"project:environment.suffix"`, but its `project` and `environment` fields are
the descriptor's own parts, not forced to ALL; a record is actually inserted only when
it passes scope validation, which (being ADMIN-typed) forces both parts to equal ALL —
so every inserted record is ALL/ALL-scoped. -/
theorem initApiTokens_seed_records (store : IApiTokenStore) (tokens : List String)
    (activeTokens : List IApiToken) (hcount : store.count = 0) :
    (∀ token p e s, jsSplit token ':' = [p, e, s] →
      ApiTokenService.buildInitToken token =
        { createdAt := none, project := p, environment := e,
          secret := p ++ ":" ++ e ++ "." ++ s,
          type := ApiTokenType.ADMIN, username := "admin" }) ∧
    (∀ r ∈ (ApiTokenService.initApiTokens store tokens activeTokens).inserted,
      r.type = ApiTokenType.ADMIN ∧ r.username = "admin" ∧
      r.project = ALL ∧ r.environment = ALL ∧
      ∃ tk ∈ tokens, r = ApiTokenService.buildInitToken tk) := by
  constructor
  · intro token p e s hsplit
    unfold ApiTokenService.buildInitToken
    rw [hsplit]
    rfl
  · intro r hr
    have hloop : ApiTokenService.initApiTokens store tokens activeTokens =
        ApiTokenService.initLoop store tokens activeTokens := by
      unfold ApiTokenService.initApiTokens
      rw [if_neg (fun hne : store.count ≠ 0 => hne hcount)]
    rw [hloop] at hr
    obtain ⟨hv, tk, htk, heq⟩ := initLoop_inserted_spec store tokens activeTokens r hr
    have hty : r.type = ApiTokenType.ADMIN := by
      rw [heq]
      rfl
    obtain ⟨hp, he⟩ := validateNewApiToken_ok_admin r hty hv
    refine ⟨hty, ?_, hp, he, tk, htk, heq⟩
    rw [heq]
    rfl

/-- Counterexample to C3 as stated: against an empty store whose insert accepts every
record, the seeder builds for the descriptor "myproj:dev:abc" (which is of the form
project:environment:suffix) a record whose project is "myproj" — not the ALL sentinel
— and inserts nothing at all, because that record fails scope validation. -/
theorem initApiTokens_not_all_scoped :
    (ApiTokenService.buildInitToken "myproj:dev:abc").project = "myproj" ∧
    "myproj" ≠ ALL ∧
    (ApiTokenService.initApiTokens
        { getAll := .ok [], getAllActive := .ok [], count := 0,
          insert := fun t => .ok t, setExpiry := fun _ _ => .error ⟨"", "", ""⟩,
          delete := fun _ => .ok () }
        ["myproj:dev:abc"] []).inserted = [] := by
  decide

/-- Witness for C3 (amended): the descriptor "*:*:abc" builds the ADMIN record scoped
to the descriptor's own parts (here the ALL sentinel) with secret "*:*.abc" and
username "admin". -/
theorem initApiTokens_seed_records_witness :
    ApiTokenService.buildInitToken "*:*:abc" =
      { createdAt := none, project := "*", environment := "*",
        secret := "*:*.abc", type := ApiTokenType.ADMIN, username := "admin" } :=
  (initApiTokens_seed_records
    { getAll := .ok [], getAllActive := .ok [], count := 0,
      insert := fun t => .ok t, setExpiry := fun _ _ => .error ⟨"", "", ""⟩,
      delete := fun _ => .ok () }
    ["*:*:abc"] [] rfl).1 "*:*:abc" "*" "*" "abc" (by decide)
